import Mathlib

/-!
Verification of the Market Survey Analysis Tool generator
(`generate_msat.py`).

The program builds a three-sheet workbook ("Market Averages",
"Property Data", "Leased Beds Report") whose derived columns are
spreadsheet formulas.  This development shallow-embeds:

* the cell values and coordinate mapping written by
  `setup_market_averages_sheet`;
* the per-row formulas emitted by `setup_property_data_sheet`
  (Effective %, Total Beds, Leased Beds), as evaluation functions over
  the row's input cells under standard spreadsheet semantics
  (a formula cell that displays nothing yields the empty string; `ROUND`
  rounds half away from zero; `IF` evaluates lazily);
* the mirror formulas, the duplicated Beds/Unit lookup and the totals
  emitted by `setup_report_sheet`;
* the data-validation rule and the conditional-formatting rule attached
  to the entry sheet;
* the exact formula strings produced by the builders, and the cells
  written by `add_sample_data`, to state determinism of
  `generate_workbook`.

Input cells are typed according to the data model: names are strings,
`bedroomType` is an arbitrary string (empty string = blank cell),
`units` and `preleasePercent` are an optional rational (none = blank).
-/

/-- Value displayed by a spreadsheet cell: a number, a string (the empty
string plays the role of a blank display), or a formula error. -/
inductive XLValue where
  | num (q : ℚ)
  | str (s : String)
  | err
  deriving DecidableEq, Repr

/-- Is the value a formula error? -/
def isErr : XLValue → Bool
  | .err => true
  | _ => false

/-- Numeric content of a cell, 0 for non-numeric cells.  This is how
`SUMIF` treats each summed cell. -/
def numOr0 : XLValue → ℚ
  | .num q => q
  | _ => 0

/-- User-editable input cells of one entry-sheet row (columns B..F of
"Property Data").  `none` models a blank cell. -/
structure PropertyRowInput where
  propertyName : String
  floorplanName : String
  bedroomType : String
  units : Option ℚ
  preleasePercent : Option ℚ
  deriving DecidableEq, Repr

/-- The entirely blank row. -/
def blankRow : PropertyRowInput := ⟨"", "", "", none, none⟩

/-! ## Market Averages sheet (`setup_market_averages_sheet`) -/

/-- Content written to a cell by the generator. -/
inductive CellWrite where
  | strVal (s : String)
  | numVal (q : ℚ)
  | formula (f : String)
  deriving DecidableEq, Repr

/-- The `bedroom_types` table of `setup_market_averages_sheet`: bedroom
type label and default prelease percentage (0.45 written as 45 / 100,
and so on, since all percentages are exact rationals). -/
def bedroom_types : List (String × ℚ) :=
  [("Studio", 45 / 100),
   ("1 BR", 50 / 100),
   ("2 BR", 55 / 100),
   ("3 BR", 60 / 100),
   ("4 BR", 55 / 100),
   ("5 BR", 50 / 100)]

/-- The six bedroom-type enum names. -/
def bedroomEnum : List String := bedroom_types.map Prod.fst

/-- Cells written on the "Market Averages" sheet, as (row, column,
content): the title, the instructions, the two headers, and for the
i-th entry of `bedroom_types` (enumerated from row 7) the label in
column 2 and the percentage in column 3. -/
def marketSheetWrites : List (Nat × Nat × CellWrite) :=
  [(2, 2, .strVal "Market Average Prelease Percentages"),
   (4, 2, .strVal "Enter the market average prelease % for each bedroom type below."),
   (6, 2, .strVal "Bedroom Type"),
   (6, 3, .strVal "Prelease %")] ++
  (List.enumFrom 7 bedroom_types).flatMap (fun p =>
    [(p.1, 2, CellWrite.strVal p.2.1), (p.1, 3, CellWrite.numVal p.2.2)])

/-- Value of the cell at (row, column) on the "Market Averages" sheet. -/
def lookupMarketCell (r c : Nat) : Option CellWrite :=
  (marketSheetWrites.find? (fun w => w.1 == r && w.2.1 == c)).map (fun w => w.2.2)

/-- The coordinate mapping returned by `setup_market_averages_sheet`. -/
def market_avg_refs : List (String × String) :=
  [("Studio", "$C$7"),
   ("1 BR", "$C$8"),
   ("2 BR", "$C$9"),
   ("3 BR", "$C$10"),
   ("4 BR", "$C$11"),
   ("5 BR", "$C$12")]

/-- Parse a decimal-digit character. -/
def digitToNat? (c : Char) : Option Nat :=
  if c.isDigit then some (c.toNat - 48) else none

/-- Accumulate decimal digits into a number; fails on a non-digit. -/
def digitsToNatAux : List Char → Nat → Option Nat
  | [], acc => some acc
  | c :: cs, acc =>
    match digitToNat? c with
    | some d => digitsToNatAux cs (acc * 10 + d)
    | none => none

/-- Parse a non-empty all-digit character list. -/
def digitsToNat? (cs : List Char) : Option Nat :=
  if cs.isEmpty then none else digitsToNatAux cs 0

/-- Parse an absolute coordinate of the form `$C$<row>` into
(row, column), column C being index 3. -/
def parseAbsCoord (s : String) : Option (Nat × Nat) :=
  match s.toList with
  | '$' :: 'C' :: '$' :: ds => (digitsToNat? ds).map (fun r => (r, 3))
  | _ => none

/-- (row, column) of the Market Averages cell that the returned
coordinate mapping assigns to a bedroom type. -/
def marketRefCell (bt : String) : Option (Nat × Nat) :=
  (List.lookup bt market_avg_refs).bind parseAbsCoord

/-- Numeric default written at row `r`, column C of "Market Averages"
(the value the sheet holds right after generation). -/
def defaultMkt (r : Nat) : ℚ :=
  match lookupMarketCell r 3 with
  | some (.numVal q) => q
  | _ => 0

/-! ## Entry sheet derived formulas (`setup_property_data_sheet`)

Each derived column is the same formula in every data row, referencing
only same-row input cells and the Market Averages column C; we embed it
as a function of the row's inputs and of the Market Averages column
(`mkt r` = numeric value of `'Market Averages'!$C$<r>`). -/

/-- Rows of the entry-sheet data grid: `range(7, 107)`. -/
def entryDataRows : List Nat := List.range' 7 100

/-- Evaluation of the Effective % formula (column G):
`=IF(F<>"",F,IF(D="Studio",'Market Averages'!$C$7,...,IF(D="5 BR",'Market Averages'!$C$12,"")))`. -/
def evalEffectivePercent (mkt : Nat → ℚ) (row : PropertyRowInput) : XLValue :=
  match row.preleasePercent with
  | some p => .num p
  | none =>
    if row.bedroomType = "Studio" then .num (mkt 7)
    else if row.bedroomType = "1 BR" then .num (mkt 8)
    else if row.bedroomType = "2 BR" then .num (mkt 9)
    else if row.bedroomType = "3 BR" then .num (mkt 10)
    else if row.bedroomType = "4 BR" then .num (mkt 11)
    else if row.bedroomType = "5 BR" then .num (mkt 12)
    else .str ""

/-- The beds-per-unit lookup nested inside the Total Beds formula:
`IF(D="Studio",1,IF(D="1 BR",1,IF(D="2 BR",2,IF(D="3 BR",3,IF(D="4 BR",4,IF(D="5 BR",5,0))))))`. -/
def entryBedsLookup (bt : String) : ℚ :=
  if bt = "Studio" then 1
  else if bt = "1 BR" then 1
  else if bt = "2 BR" then 2
  else if bt = "3 BR" then 3
  else if bt = "4 BR" then 4
  else if bt = "5 BR" then 5
  else 0

/-- Evaluation of the Total Beds formula (column H):
`=IF(OR(D="",E=""),"",<lookup>*E)`. -/
def evalTotalBeds (row : PropertyRowInput) : XLValue :=
  if row.bedroomType = "" ∨ row.units = none then .str ""
  else
    match row.units with
    | some u => .num (entryBedsLookup row.bedroomType * u)
    | none => .str ""

/-- Spreadsheet `ROUND(q, 0)`: round half away from zero. -/
def xlRound0 (q : ℚ) : ℤ :=
  if 0 ≤ q then ⌊q + 1 / 2⌋ else -⌊-q + 1 / 2⌋

/-- Evaluation of the Leased Beds formula (column I):
`=IF(OR(H="",G=""),"",ROUND(H*G,0))`.  Multiplying a non-empty
non-numeric operand would be a spreadsheet error. -/
def evalLeasedBeds (mkt : Nat → ℚ) (row : PropertyRowInput) : XLValue :=
  if evalTotalBeds row = XLValue.str "" ∨ evalEffectivePercent mkt row = XLValue.str "" then
    .str ""
  else
    match evalTotalBeds row, evalEffectivePercent mkt row with
    | .num h, .num g => .num (xlRound0 (h * g))
    | _, _ => .err

/-- The conditional-formatting rule `AND($F7="",$D7<>"")` (applied to
`B7:I106`, so on row r it reads that row's F and D cells). -/
def marketAvgRuleApplies (row : PropertyRowInput) : Bool :=
  (row.preleasePercent == none) && (row.bedroomType != "")

/-! ## Bedroom-type data validation (`DataValidation` on column D) -/

/-- The `formula1` argument of the dropdown validation. -/
def bedroom_options : String := "\"Studio,1 BR,2 BR,3 BR,4 BR,5 BR\""

/-- Split a character list at commas (spreadsheet list-validation
semantics for an inline quoted list). -/
def splitCommaChars : List Char → List Char → List String
  | [], acc => [String.mk acc.reverse]
  | c :: rest, acc =>
    if c = ',' then String.mk acc.reverse :: splitCommaChars rest []
    else splitCommaChars rest (c :: acc)

/-- The allowed dropdown entries: `bedroom_options` with the outer
quotes stripped, split at commas. -/
def dvList : List String :=
  splitCommaChars ((bedroom_options.toList.drop 1).dropLast) []

/-- The validation is created with `allow_blank=True`. -/
def dv_allow_blank : Bool := true

/-- The validation's rejection message. -/
def dv_error : String := "Please select a valid bedroom type"

/-- Whether the list validation accepts an entered value: blank entries
are allowed, otherwise the value must be one of the listed options. -/
def dvAccepts (v : String) : Bool :=
  (dv_allow_blank && (v == "")) || dvList.contains v

/-- Cells the validation is attached to: column D (index 4) of every
entry data row (`dv.add(cell)` inside the row loop). -/
def dvTargetCells : List (Nat × Nat) := entryDataRows.map (fun r => (r, 4))

/-! ## Report sheet (`setup_report_sheet`) -/

/-- Rows of the report grid: `range(8, 108)`; report row r mirrors entry
row `r - 1`. -/
def reportDataRows : List Nat := List.range' 8 100

/-- The five entry-sheet fields mirrored by the report sheet. -/
inductive MirroredField where
  | propName
  | floorplan
  | totalBeds
  | effPct
  | leasedBeds
  deriving DecidableEq, Repr

/-- Value of the entry-sheet cell a report column mirrors (columns B, C,
H, G, I of "Property Data"). -/
def entryCellValue (mkt : Nat → ℚ) (row : PropertyRowInput) : MirroredField → XLValue
  | .propName => .str row.propertyName
  | .floorplan => .str row.floorplanName
  | .totalBeds => evalTotalBeds row
  | .effPct => evalEffectivePercent mkt row
  | .leasedBeds => evalLeasedBeds mkt row

/-- Evaluation of a pass-through mirror formula
`=IF(src="","",src)`. -/
def mirror (v : XLValue) : XLValue :=
  if v = XLValue.str "" then .str "" else v

/-- Value of the report cell mirroring field `f` on report row `r`
(`data_row = row - 1` in `setup_report_sheet`). -/
def reportMirrorCell (mkt : Nat → ℚ) (rows : Nat → PropertyRowInput)
    (r : Nat) (f : MirroredField) : XLValue :=
  mirror (entryCellValue mkt (rows (r - 1)) f)

/-- Evaluation of the report sheet's own Beds/Unit formula (column D):
`=IF(D="","",IF(D="Studio",1,...,IF(D="5 BR",5,"")))` — note the final
fallback is `""`, unlike the entry sheet's `0`. -/
def evalReportBedsPerUnit (bt : String) : XLValue :=
  if bt = "" then .str ""
  else if bt = "Studio" then .num 1
  else if bt = "1 BR" then .num 1
  else if bt = "2 BR" then .num 2
  else if bt = "3 BR" then .num 3
  else if bt = "4 BR" then .num 4
  else if bt = "5 BR" then .num 5
  else .str ""

/-- Evaluation of `SUMIF(range,"<>""")`: the criterion compares each
cell against the one-character text `"`; matching text cells contribute
0, matching numbers their value; an error cell poisons the sum. -/
def sumifNeQuote (vs : List XLValue) : XLValue :=
  if vs.any isErr then .err
  else .num (((vs.filter (fun v => v != XLValue.str "\"")).map numOr0).sum)

/-- The report's Total Beds column E over rows 8..107. -/
def reportTotalBedsCol (mkt : Nat → ℚ) (rows : Nat → PropertyRowInput) : List XLValue :=
  reportDataRows.map (fun r => reportMirrorCell mkt rows r MirroredField.totalBeds)

/-- The report's Leased Beds column G over rows 8..107. -/
def reportLeasedBedsCol (mkt : Nat → ℚ) (rows : Nat → PropertyRowInput) : List XLValue :=
  reportDataRows.map (fun r => reportMirrorCell mkt rows r MirroredField.leasedBeds)

/-- Value of cell E110, `=SUMIF(E8:E107,"<>""")`. -/
def sumTotalBedsCell (mkt : Nat → ℚ) (rows : Nat → PropertyRowInput) : XLValue :=
  sumifNeQuote (reportTotalBedsCol mkt rows)

/-- Value of cell G110, `=SUMIF(G8:G107,"<>""")`. -/
def sumLeasedBedsCell (mkt : Nat → ℚ) (rows : Nat → PropertyRowInput) : XLValue :=
  sumifNeQuote (reportLeasedBedsCol mkt rows)

/-- Value of cell C112, `=IF(E110=0,"",G110/E110)` (`IF` evaluates only
the taken branch). -/
def evalOverallPercent (mkt : Nat → ℚ) (rows : Nat → PropertyRowInput) : XLValue :=
  match sumTotalBedsCell mkt rows with
  | .num s =>
    if s = 0 then .str ""
    else
      match sumLeasedBedsCell mkt rows with
      | .num l => .num (l / s)
      | _ => .err
  | _ => .err

example : dvList = ["Studio", "1 BR", "2 BR", "3 BR", "4 BR", "5 BR"] := by decide

example : parseAbsCoord "$C$10" = some (10, 3) := by decide

example : lookupMarketCell 9 3 = some (.numVal (55 / 100)) := rfl

example : defaultMkt 7 = 45 / 100 := rfl

example : evalTotalBeds ⟨"P", "F", "2 BR", some 48, none⟩ = .num 96 := by
  simp [evalTotalBeds, entryBedsLookup]
  norm_num

example : xlRound0 (5 / 2) = 3 := by
  norm_num [xlRound0, Int.floor_eq_iff]

example : xlRound0 (528 / 10) = 53 := by
  norm_num [xlRound0, Int.floor_eq_iff]

/-! ## Formula strings and the generator (`generate_workbook`)

`generate_workbook` calls the three sheet builders (whose formula
strings depend only on the loop row index) and, when
`include_sample_data` is set, `add_sample_data`, which writes literal
values into columns B..F of rows 7..21 of "Property Data" and never
writes a formula. -/

/-- Decimal rendering of a row number inside a formula string. -/
def rowS (r : Nat) : String := toString r

/-- The Effective % formula string written at G`r`. -/
def effectiveFormula (r : Nat) : String :=
  "=IF(F" ++ rowS r ++ "<>\"\",F" ++ rowS r ++
  ",IF(D" ++ rowS r ++ "=\"Studio\",\x27Market Averages\x27!$C$7" ++
  ",IF(D" ++ rowS r ++ "=\"1 BR\",\x27Market Averages\x27!$C$8" ++
  ",IF(D" ++ rowS r ++ "=\"2 BR\",\x27Market Averages\x27!$C$9" ++
  ",IF(D" ++ rowS r ++ "=\"3 BR\",\x27Market Averages\x27!$C$10" ++
  ",IF(D" ++ rowS r ++ "=\"4 BR\",\x27Market Averages\x27!$C$11" ++
  ",IF(D" ++ rowS r ++ "=\"5 BR\",\x27Market Averages\x27!$C$12,\"\")))))))"

/-- The Total Beds formula string written at H`r`. -/
def totalBedsFormula (r : Nat) : String :=
  "=IF(OR(D" ++ rowS r ++ "=\"\",E" ++ rowS r ++ "=\"\"),\"\"" ++
  ",IF(D" ++ rowS r ++ "=\"Studio\",1" ++
  ",IF(D" ++ rowS r ++ "=\"1 BR\",1" ++
  ",IF(D" ++ rowS r ++ "=\"2 BR\",2" ++
  ",IF(D" ++ rowS r ++ "=\"3 BR\",3" ++
  ",IF(D" ++ rowS r ++ "=\"4 BR\",4" ++
  ",IF(D" ++ rowS r ++ "=\"5 BR\",5,0))))))*E" ++ rowS r ++ ")"

/-- The Leased Beds formula string written at I`r`. -/
def leasedFormula (r : Nat) : String :=
  "=IF(OR(H" ++ rowS r ++ "=\"\",G" ++ rowS r ++ "=\"\"),\"\",ROUND(H" ++
  rowS r ++ "*G" ++ rowS r ++ ",0))"

/-- A report pass-through formula string mirroring column `col` of
entry row `dr`. -/
def reportMirrorFormula (col : String) (dr : Nat) : String :=
  "=IF(\x27Property Data\x27!" ++ col ++ rowS dr ++ "=\"\",\"\",\x27Property Data\x27!" ++
  col ++ rowS dr ++ ")"

/-- The report Beds/Unit formula string derived from entry row `dr`. -/
def reportBedsFormula (dr : Nat) : String :=
  "=IF(\x27Property Data\x27!D" ++ rowS dr ++ "=\"\",\"\"" ++
  ",IF(\x27Property Data\x27!D" ++ rowS dr ++ "=\"Studio\",1" ++
  ",IF(\x27Property Data\x27!D" ++ rowS dr ++ "=\"1 BR\",1" ++
  ",IF(\x27Property Data\x27!D" ++ rowS dr ++ "=\"2 BR\",2" ++
  ",IF(\x27Property Data\x27!D" ++ rowS dr ++ "=\"3 BR\",3" ++
  ",IF(\x27Property Data\x27!D" ++ rowS dr ++ "=\"4 BR\",4" ++
  ",IF(\x27Property Data\x27!D" ++ rowS dr ++ "=\"5 BR\",5,\"\")))))))"

/-- Formula cells written by `setup_property_data_sheet`, as
(row, column, formula string): columns G, H, I of each data row. -/
def setup_property_data_formulas : List (Nat × Nat × String) :=
  entryDataRows.flatMap (fun row =>
    [(row, 7, effectiveFormula row),
     (row, 8, totalBedsFormula row),
     (row, 9, leasedFormula row)])

/-- Formula cells written by `setup_report_sheet`: the report date, the
six mirrored/derived columns of each report row (mirroring entry row
`row - 1`), and the totals section. -/
def setup_report_formulas : List (Nat × Nat × String) :=
  [(3, 2, "=TODAY()")] ++
  reportDataRows.flatMap (fun row =>
    [(row, 2, reportMirrorFormula "B" (row - 1)),
     (row, 3, reportMirrorFormula "C" (row - 1)),
     (row, 4, reportBedsFormula (row - 1)),
     (row, 5, reportMirrorFormula "H" (row - 1)),
     (row, 6, reportMirrorFormula "G" (row - 1)),
     (row, 7, reportMirrorFormula "I" (row - 1))]) ++
  [(110, 5, "=SUMIF(E8:E107,\"<>\"\"\")"),
   (110, 7, "=SUMIF(G8:G107,\"<>\"\"\")"),
   (112, 3, "=IF(E110=0,\"\",G110/E110)")]

/-- The `sample_data` table of `add_sample_data`: property, floorplan,
bedroom type, units, optional explicit prelease percentage (the Python
table stores a blank string where no percentage is given; such rows
skip the column-F write). -/
def sample_data : List (String × String × String × ℚ × Option ℚ) :=
  [("The Heights", "Studio Deluxe", "Studio", 24, some (52 / 100)),
   ("The Heights", "A1", "1 BR", 36, some (52 / 100)),
   ("The Heights", "B1", "2 BR", 48, some (52 / 100)),
   ("The Heights", "B2 Premium", "2 BR", 24, some (52 / 100)),
   ("The Heights", "C1", "3 BR", 32, some (52 / 100)),
   ("University Village", "Efficiency", "Studio", 20, none),
   ("University Village", "One Bed", "1 BR", 40, none),
   ("University Village", "Two Bed A", "2 BR", 60, none),
   ("University Village", "Two Bed B", "2 BR", 30, none),
   ("University Village", "Three Bed", "3 BR", 48, none),
   ("University Village", "Four Bed", "4 BR", 24, none),
   ("Campus Edge", "Studio", "Studio", 16, some (48 / 100)),
   ("Campus Edge", "1BR Classic", "1 BR", 32, some (48 / 100)),
   ("Campus Edge", "2BR Standard", "2 BR", 40, some (48 / 100)),
   ("Campus Edge", "3BR Townhome", "3 BR", 20, some (48 / 100))]

/-- Cells written by `add_sample_data` (enumerated from row 7): columns
B..E always, column F only when a percentage is present.  All are
literal values, never formulas. -/
def add_sample_data_writes : List (Nat × Nat × CellWrite) :=
  (List.enumFrom 7 sample_data).flatMap (fun p =>
    [(p.1, 2, CellWrite.strVal p.2.1),
     (p.1, 3, CellWrite.strVal p.2.2.1),
     (p.1, 4, CellWrite.strVal p.2.2.2.1),
     (p.1, 5, CellWrite.numVal p.2.2.2.2.1)] ++
    match p.2.2.2.2.2 with
    | some q => [(p.1, 6, CellWrite.numVal q)]
    | none => [])

/-- The formula cells of the workbook produced by one run of
`generate_workbook`, keyed by sheet name and (row, column).  The
builders write these unconditionally; the `include_sample_data` flag
only controls `add_sample_data`, which writes literal values (to cells
disjoint from every formula cell — see the determinism theorem) and no
formula, so the formula-cell map does not depend on it. -/
def generate_workbook_formulas (include_sample_data : Bool) :
    List (String × Nat × Nat × String) :=
  setup_property_data_formulas.map (fun c => ("Property Data", c)) ++
  setup_report_formulas.map (fun c => ("Leased Beds Report", c))

/-- Addresses of the entry-sheet formula cells. -/
def propertyDataFormulaAddrs : List (Nat × Nat) :=
  setup_property_data_formulas.map (fun c => (c.1, c.2.1))

/-! ## Helper lemmas -/

/-- The Total Beds cell evaluates to a number or the empty display. -/
lemma evalTotalBeds_shape (row : PropertyRowInput) :
    evalTotalBeds row = XLValue.str "" ∨ ∃ q, evalTotalBeds row = XLValue.num q := by
  unfold evalTotalBeds
  cases hu : row.units <;> split_ifs <;> simp

/-- The Effective % cell evaluates to a number or the empty display. -/
lemma evalEffectivePercent_shape (mkt : Nat → ℚ) (row : PropertyRowInput) :
    evalEffectivePercent mkt row = XLValue.str "" ∨
      ∃ q, evalEffectivePercent mkt row = XLValue.num q := by
  unfold evalEffectivePercent
  cases row.preleasePercent <;> split_ifs <;> simp

/-- The Leased Beds cell evaluates to a number or the empty display. -/
lemma evalLeasedBeds_shape (mkt : Nat → ℚ) (row : PropertyRowInput) :
    evalLeasedBeds mkt row = XLValue.str "" ∨
      ∃ q, evalLeasedBeds mkt row = XLValue.num q := by
  unfold evalLeasedBeds
  rcases evalTotalBeds_shape row with h | ⟨q, h⟩ <;>
    rcases evalEffectivePercent_shape mkt row with h2 | ⟨p, h2⟩ <;>
      simp [h, h2]

/-- No mirrored entry-sheet cell evaluates to a formula error. -/
lemma entryCellValue_ne_err (mkt : Nat → ℚ) (row : PropertyRowInput) (f : MirroredField) :
    entryCellValue mkt row f ≠ XLValue.err := by
  cases f with
  | propName => simp [entryCellValue]
  | floorplan => simp [entryCellValue]
  | totalBeds =>
    rcases evalTotalBeds_shape row with h | ⟨q, h⟩ <;> simp [entryCellValue, h]
  | effPct =>
    rcases evalEffectivePercent_shape mkt row with h | ⟨q, h⟩ <;> simp [entryCellValue, h]
  | leasedBeds =>
    rcases evalLeasedBeds_shape mkt row with h | ⟨q, h⟩ <;> simp [entryCellValue, h]

/-- A pass-through mirror of a non-error value is not an error. -/
lemma mirror_ne_err (v : XLValue) (h : v ≠ XLValue.err) : mirror v ≠ XLValue.err := by
  unfold mirror
  split_ifs <;> simp [h]

/-- Mirroring preserves the numeric content used by `SUMIF`. -/
lemma numOr0_mirror (v : XLValue) : numOr0 (mirror v) = numOr0 v := by
  unfold mirror
  split_ifs with h <;> simp [h, numOr0]

/-- Dropping cells of zero numeric content does not change a sum. -/
lemma sum_map_filter_numOr0 (p : XLValue → Bool) :
    ∀ vs : List XLValue, (∀ v ∈ vs, p v = false → numOr0 v = 0) →
      ((vs.filter p).map numOr0).sum = (vs.map numOr0).sum
  | [], _ => rfl
  | v :: vs, h => by
    have ih := sum_map_filter_numOr0 p vs (fun w hw => h w (List.mem_cons_of_mem _ hw))
    cases hp : p v with
    | true => simp [List.filter_cons, hp, ih]
    | false => simp [List.filter_cons, hp, ih, h v (List.mem_cons_self ..) hp]

/-- `SUMIF(range,"<>""")` over error-free cells is the sum of their
numeric contents. -/
lemma sumifNeQuote_eq_sum (vs : List XLValue) (h : ∀ v ∈ vs, v ≠ XLValue.err) :
    sumifNeQuote vs = XLValue.num ((vs.map numOr0).sum) := by
  unfold sumifNeQuote
  have hany : vs.any isErr = false := by
    rw [List.any_eq_false]
    intro v hv
    cases v with
    | num q => simp [isErr]
    | str s => simp [isErr]
    | err => exact absurd rfl (h _ hv)
  rw [hany]
  simp only [Bool.false_eq_true, if_false]
  congr 1
  apply sum_map_filter_numOr0
  intro v hv hp
  have : v = XLValue.str "\"" := by simpa using hp
  rw [this]
  rfl

/-- Reindexing a mapped `range'` by predecessor. -/
lemma range'_map_pred {α : Type} (k : Nat → α) :
    ∀ n s : Nat, (List.range' (s + 1) n).map (fun r => k (r - 1)) = (List.range' s n).map k
  | 0, _ => rfl
  | n + 1, s => by
    rw [List.range'_succ, List.range'_succ, List.map_cons, List.map_cons,
        Nat.add_sub_cancel, range'_map_pred k n (s + 1)]

/-- The report column for field `f` is the mirrored entry column,
reindexed by the one-row offset. -/
lemma reportCol_map (mkt : Nat → ℚ) (rows : Nat → PropertyRowInput) (f : MirroredField) :
    reportDataRows.map (fun r => reportMirrorCell mkt rows r f)
      = entryDataRows.map (fun r => mirror (entryCellValue mkt (rows r) f)) :=
  range'_map_pred (fun r => mirror (entryCellValue mkt (rows r) f)) 100 7

/-- `SUMIF` of a report column equals the sum of the non-empty values
of the mirrored entry column. -/
lemma sumif_report_col (mkt : Nat → ℚ) (rows : Nat → PropertyRowInput) (f : MirroredField) :
    sumifNeQuote (reportDataRows.map (fun r => reportMirrorCell mkt rows r f))
      = XLValue.num ((((entryDataRows.map (fun r => entryCellValue mkt (rows r) f)).filter
          (fun v => v != XLValue.str "")).map numOr0).sum) := by
  have hne : ∀ v ∈ reportDataRows.map (fun r => reportMirrorCell mkt rows r f),
      v ≠ XLValue.err := by
    intro v hv
    obtain ⟨r, hr, rfl⟩ := List.mem_map.mp hv
    exact mirror_ne_err _ (entryCellValue_ne_err _ _ _)
  rw [sumifNeQuote_eq_sum _ hne]
  congr 1
  rw [sum_map_filter_numOr0]
  · rw [reportCol_map mkt rows f, List.map_map, List.map_map]
    congr 1
    apply List.map_congr_left
    intro r hr
    exact numOr0_mirror _
  · intro v hv hp
    have : v = XLValue.str "" := by simpa using hp
    rw [this]
    rfl

/-- Summing a filtered column of empty displays gives zero. -/
lemma sum_filter_ne_of_const_empty (l : List Nat) :
    ((((l.map (fun _ => XLValue.str "")).filter (fun v => v != XLValue.str "")).map
        numOr0).sum : ℚ) = 0 := by
  induction l with
  | nil => rfl
  | cons a t ih => simp

/-- `xlRound0` rounds to a nearest integer. -/
lemma xlRound0_nearest (q : ℚ) : |q - (xlRound0 q : ℚ)| ≤ 1 / 2 := by
  unfold xlRound0
  split_ifs with h
  · have h1 : ((⌊q + 1 / 2⌋ : ℤ) : ℚ) ≤ q + 1 / 2 := Int.floor_le _
    have h2 : q + 1 / 2 < ⌊q + 1 / 2⌋ + 1 := Int.lt_floor_add_one _
    rw [abs_le]
    constructor <;> linarith
  · have h1 : ((⌊-q + 1 / 2⌋ : ℤ) : ℚ) ≤ -q + 1 / 2 := Int.floor_le _
    have h2 : -q + 1 / 2 < ⌊-q + 1 / 2⌋ + 1 := Int.lt_floor_add_one _
    rw [abs_le]
    constructor <;> push_cast <;> linarith

/-! ## Claims -/

/-- C1: For every entry-sheet row r (rows 7..106), the effective-percent
cell evaluates to the row's preleasePercent when that input is
non-empty; otherwise, when bedroomType equals one of the six enum
names, it evaluates to the Market Averages sheet's default cell for
that bedroom type (the cell at the coordinate the Reference Sheet
Builder returned for it); and when preleasePercent is empty and
bedroomType matches none of the enum names (including empty), it
evaluates to empty (not zero, not an error). -/
theorem effective_percent_cell_spec (mkt : Nat → ℚ) (r : Nat) (hr : r ∈ entryDataRows)
    (row : PropertyRowInput) :
    (∀ p, row.preleasePercent = some p → evalEffectivePercent mkt row = XLValue.num p) ∧
    (row.preleasePercent = none → row.bedroomType ∈ bedroomEnum →
      ∃ mr, marketRefCell row.bedroomType = some (mr, 3) ∧
        evalEffectivePercent mkt row = XLValue.num (mkt mr)) ∧
    (row.preleasePercent = none → row.bedroomType ∉ bedroomEnum →
      evalEffectivePercent mkt row = XLValue.str "") := by
  refine ⟨?_, ?_, ?_⟩
  · intro p hp
    unfold evalEffectivePercent
    rw [hp]
  · intro hnone hmem
    unfold evalEffectivePercent
    rw [hnone]
    simp only [bedroomEnum, bedroom_types, List.map_cons, List.map_nil, List.mem_cons,
      List.not_mem_nil, or_false] at hmem
    rcases hmem with h | h | h | h | h | h <;> rw [h] <;>
      first
      | exact ⟨7, rfl, rfl⟩
      | exact ⟨8, rfl, rfl⟩
      | exact ⟨9, rfl, rfl⟩
      | exact ⟨10, rfl, rfl⟩
      | exact ⟨11, rfl, rfl⟩
      | exact ⟨12, rfl, rfl⟩
  · intro hnone hmem
    unfold evalEffectivePercent
    rw [hnone]
    simp only [bedroomEnum, bedroom_types, List.map_cons, List.map_nil, List.mem_cons,
      List.not_mem_nil, or_false, not_or] at hmem
    simp [hmem.1, hmem.2.1, hmem.2.2.1, hmem.2.2.2.1, hmem.2.2.2.2.1, hmem.2.2.2.2.2]

/-- C1 witness: a row with blank prelease and a bedroom type outside
the enum evaluates to the empty display. -/
theorem effective_percent_cell_spec_witness :
    evalEffectivePercent defaultMkt ⟨"X", "Y", "Penthouse", some 5, none⟩ = XLValue.str "" :=
  (effective_percent_cell_spec defaultMkt 7 (by decide)
    ⟨"X", "Y", "Penthouse", some 5, none⟩).2.2 rfl (by decide)

/-- C2: For every entry-sheet row, the leased-beds cell evaluates to
empty when totalBeds or effectivePercent is empty, and otherwise to
round(totalBeds × effectivePercent) to the nearest integer under
standard spreadsheet ROUND semantics (round half away from zero); in
particular, for bedroomType "2 BR", units 48, empty preleasePercent,
and a "2 BR" market default of 0.55, leasedBeds evaluates to 53. -/
theorem leased_beds_cell_spec (mkt : Nat → ℚ) (r : Nat) (hr : r ∈ entryDataRows)
    (row : PropertyRowInput) :
    ((evalTotalBeds row = XLValue.str "" ∨ evalEffectivePercent mkt row = XLValue.str "") →
      evalLeasedBeds mkt row = XLValue.str "") ∧
    (∀ h g, evalTotalBeds row = XLValue.num h → evalEffectivePercent mkt row = XLValue.num g →
      evalLeasedBeds mkt row = XLValue.num (xlRound0 (h * g))) ∧
    (∀ q : ℚ, |q - (xlRound0 q : ℚ)| ≤ 1 / 2) ∧
    (xlRound0 (5 / 2) = 3 ∧ xlRound0 (-(5 / 2)) = -3) ∧
    (∀ mkt2 : Nat → ℚ, mkt2 9 = 55 / 100 →
      evalLeasedBeds mkt2 ⟨"P", "F", "2 BR", some 48, none⟩ = XLValue.num 53) := by
  refine ⟨?_, ?_, xlRound0_nearest, ⟨?_, ?_⟩, ?_⟩
  · intro h
    unfold evalLeasedBeds
    rw [if_pos h]
  · intro h g h1 h2
    unfold evalLeasedBeds
    rw [h1, h2]
    simp
  · norm_num [xlRound0, Int.floor_eq_iff]
  · norm_num [xlRound0, Int.floor_eq_iff]
  · intro mkt2 hm
    have h1 : evalTotalBeds ⟨"P", "F", "2 BR", some 48, none⟩ = XLValue.num (2 * 48) := rfl
    have h2 : evalEffectivePercent mkt2 ⟨"P", "F", "2 BR", some 48, none⟩
        = XLValue.num (mkt2 9) := rfl
    unfold evalLeasedBeds
    rw [h1, h2, hm]
    rw [if_neg (by simp)]
    show XLValue.num (xlRound0 (2 * 48 * (55 / 100))) = XLValue.num 53
    norm_num [xlRound0, Int.floor_eq_iff]

/-- C2 witness: the concrete 2 BR example against the generated
defaults. -/
theorem leased_beds_cell_spec_witness :
    evalLeasedBeds defaultMkt ⟨"P", "F", "2 BR", some 48, none⟩ = XLValue.num 53 :=
  (leased_beds_cell_spec defaultMkt 7 (by decide)
    ⟨"P", "F", "2 BR", some 48, none⟩).2.2.2.2 defaultMkt rfl

/-- C3: For every entry-sheet row, the total-beds cell evaluates to
empty when bedroomType or units is empty, and otherwise to
bedsPerUnit(bedroomType) × units under the fixed lookup Studio→1,
1 BR→1, 2 BR→2, 3 BR→3, 4 BR→4, 5 BR→5, with the lookup falling back to
0 (so the cell evaluates to 0) when the non-empty bedroomType matches
none of the six enum names. -/
theorem total_beds_cell_spec (r : Nat) (hr : r ∈ entryDataRows) (row : PropertyRowInput) :
    ((row.bedroomType = "" ∨ row.units = none) → evalTotalBeds row = XLValue.str "") ∧
    (∀ u, row.units = some u → row.bedroomType ≠ "" →
      evalTotalBeds row = XLValue.num (entryBedsLookup row.bedroomType * u)) ∧
    (entryBedsLookup "Studio" = 1 ∧ entryBedsLookup "1 BR" = 1 ∧ entryBedsLookup "2 BR" = 2 ∧
      entryBedsLookup "3 BR" = 3 ∧ entryBedsLookup "4 BR" = 4 ∧ entryBedsLookup "5 BR" = 5) ∧
    (row.bedroomType ∉ bedroomEnum → entryBedsLookup row.bedroomType = 0) ∧
    (∀ u, row.units = some u → row.bedroomType ≠ "" → row.bedroomType ∉ bedroomEnum →
      evalTotalBeds row = XLValue.num 0) := by
  have hlook : ∀ u, row.units = some u → row.bedroomType ≠ "" →
      evalTotalBeds row = XLValue.num (entryBedsLookup row.bedroomType * u) := by
    intro u hu hne
    unfold evalTotalBeds
    rw [hu]
    simp [hne]
  have hfall : row.bedroomType ∉ bedroomEnum → entryBedsLookup row.bedroomType = 0 := by
    intro hmem
    simp only [bedroomEnum, bedroom_types, List.map_cons, List.map_nil, List.mem_cons,
      List.not_mem_nil, or_false, not_or] at hmem
    unfold entryBedsLookup
    simp [hmem.1, hmem.2.1, hmem.2.2.1, hmem.2.2.2.1, hmem.2.2.2.2.1, hmem.2.2.2.2.2]
  refine ⟨?_, hlook, ⟨rfl, rfl, rfl, rfl, rfl, rfl⟩, hfall, ?_⟩
  · intro h
    unfold evalTotalBeds
    rw [if_pos h]
  · intro u hu hne hmem
    rw [hlook u hu hne, hfall hmem, zero_mul]

/-- C3 witness: the first sample row. -/
theorem total_beds_cell_spec_witness :
    evalTotalBeds ⟨"The Heights", "Studio Deluxe", "Studio", some 24, some (52 / 100)⟩
      = XLValue.num (entryBedsLookup "Studio" * 24) :=
  (total_beds_cell_spec 7 (by decide)
    ⟨"The Heights", "Studio Deluxe", "Studio", some 24, some (52 / 100)⟩).2.1 24 rfl (by decide)

/-- C4: For every report-sheet row r (rows 8..107) and each mirrored
field (property name, floorplan name, total beds, effective percentage,
leased beds), the report cell is a formula that evaluates to the
corresponding Entry Sheet cell's value of row r−1 when that source
value is non-empty, and evaluates to empty (never a formula error or
broken-reference display) when the source is empty. -/
theorem report_mirror_cell_spec (mkt : Nat → ℚ) (rows : Nat → PropertyRowInput)
    (r : Nat) (hr : r ∈ reportDataRows) (f : MirroredField) :
    (entryCellValue mkt (rows (r - 1)) f ≠ XLValue.str "" →
      reportMirrorCell mkt rows r f = entryCellValue mkt (rows (r - 1)) f) ∧
    (entryCellValue mkt (rows (r - 1)) f = XLValue.str "" →
      reportMirrorCell mkt rows r f = XLValue.str "") ∧
    reportMirrorCell mkt rows r f ≠ XLValue.err := by
  unfold reportMirrorCell mirror
  refine ⟨fun h => if_neg h, fun h => by rw [h]; simp, ?_⟩
  split_ifs with h
  · simp
  · exact entryCellValue_ne_err mkt (rows (r - 1)) f

/-- C4 witness: the Total Beds mirror on report row 8 reproduces the
non-empty entry value of row 7. -/
theorem report_mirror_cell_spec_witness :
    reportMirrorCell defaultMkt
        (fun _ => ⟨"The Heights", "Studio Deluxe", "Studio", some 24, some (52 / 100)⟩)
        8 MirroredField.totalBeds
      = entryCellValue defaultMkt
          ⟨"The Heights", "Studio Deluxe", "Studio", some 24, some (52 / 100)⟩
          MirroredField.totalBeds :=
  (report_mirror_cell_spec defaultMkt
    (fun _ => ⟨"The Heights", "Studio Deluxe", "Studio", some 24, some (52 / 100)⟩)
    8 (by decide) MirroredField.totalBeds).1 (by simp [entryCellValue, evalTotalBeds])

/-- C5 counterexample: on the bedroomType "Loft" (non-empty, outside
the enum) the entry sheet's embedded lookup yields 0 (and the Total
Beds cell of a row with 10 units evaluates to 0) while the report
sheet's Beds/Unit formula evaluates to empty, so the two duplicated
lookups are not extensionally equal functions of bedroomType. -/
theorem beds_per_unit_lookup_counterexample :
    evalReportBedsPerUnit "Loft" ≠ XLValue.num (entryBedsLookup "Loft") ∧
    evalReportBedsPerUnit "Loft" = XLValue.str "" ∧
    entryBedsLookup "Loft" = 0 ∧
    evalTotalBeds ⟨"P", "F", "Loft", some 10, none⟩ = XLValue.num 0 := by
  refine ⟨?_, rfl, rfl, ?_⟩
  · simp [evalReportBedsPerUnit, entryBedsLookup]
  · simp [evalTotalBeds, entryBedsLookup]

/-- C5 (amended): the two duplicated beds-per-unit lookups agree on the
six enum names; at empty bedroomType the report lookup yields empty
(and the entry formula's own emptiness guard also makes its cell
empty); but on any other non-empty string the entry lookup falls back
to 0 while the report lookup yields empty, so they differ there. -/
theorem beds_per_unit_lookup_amended (bt : String) :
    (bt ∈ bedroomEnum → evalReportBedsPerUnit bt = XLValue.num (entryBedsLookup bt)) ∧
    (bt = "" → evalReportBedsPerUnit bt = XLValue.str "") ∧
    (∀ row : PropertyRowInput, row.bedroomType = "" → evalTotalBeds row = XLValue.str "") ∧
    (bt ≠ "" → bt ∉ bedroomEnum →
      evalReportBedsPerUnit bt = XLValue.str "" ∧ entryBedsLookup bt = 0) := by
  refine ⟨?_, ?_, ?_, ?_⟩
  · intro hmem
    simp only [bedroomEnum, bedroom_types, List.map_cons, List.map_nil, List.mem_cons,
      List.not_mem_nil, or_false] at hmem
    rcases hmem with h | h | h | h | h | h <;> rw [h] <;> rfl
  · intro h
    rw [h]
    rfl
  · intro row h
    unfold evalTotalBeds
    rw [if_pos (Or.inl h)]
  · intro hne hmem
    simp only [bedroomEnum, bedroom_types, List.map_cons, List.map_nil, List.mem_cons,
      List.not_mem_nil, or_false, not_or] at hmem
    unfold evalReportBedsPerUnit entryBedsLookup
    simp [hne, hmem.1, hmem.2.1, hmem.2.2.1, hmem.2.2.2.1, hmem.2.2.2.2.1, hmem.2.2.2.2.2]

/-- C5 amended witness: the two lookups agree at "2 BR". -/
theorem beds_per_unit_lookup_amended_witness :
    evalReportBedsPerUnit "2 BR" = XLValue.num (entryBedsLookup "2 BR") :=
  (beds_per_unit_lookup_amended "2 BR").1 (by decide)

/-- C7: For every entry-sheet row in the 100-row range, the "using
market average" conditional highlight applies if and only if that row's
bedroomType cell is non-empty and its preleasePercent cell is empty. -/
theorem market_average_highlight_spec (r : Nat) (hr : r ∈ entryDataRows)
    (row : PropertyRowInput) :
    marketAvgRuleApplies row = true ↔
      (row.bedroomType ≠ "" ∧ row.preleasePercent = none) := by
  unfold marketAvgRuleApplies
  cases hpp : row.preleasePercent <;> simp [hpp, and_comm]

/-- C7 witness: a sample row with blank prelease and a set bedroom type
is flagged. -/
theorem market_average_highlight_spec_witness :
    marketAvgRuleApplies ⟨"University Village", "Efficiency", "Studio", some 20, none⟩
      = true :=
  (market_average_highlight_spec 7 (by decide)
    ⟨"University Village", "Efficiency", "Studio", some 20, none⟩).mpr ⟨by decide, rfl⟩

/-- C6: The report's totals section evaluates sumTotalBeds to the sum
of all non-empty per-row total-beds values and sumLeasedBeds to the sum
of all non-empty per-row leased-beds values over the 100 mirrored rows,
and the overall-percentage cell evaluates to sumLeasedBeds divided by
sumTotalBeds when sumTotalBeds is non-zero and to empty (not a division
error) when sumTotalBeds is zero. -/
theorem report_totals_spec (mkt : Nat → ℚ) (rows : Nat → PropertyRowInput) :
    sumTotalBedsCell mkt rows
      = XLValue.num ((((entryDataRows.map (fun r => evalTotalBeds (rows r))).filter
          (fun v => v != XLValue.str "")).map numOr0).sum) ∧
    sumLeasedBedsCell mkt rows
      = XLValue.num ((((entryDataRows.map (fun r => evalLeasedBeds mkt (rows r))).filter
          (fun v => v != XLValue.str "")).map numOr0).sum) ∧
    (∀ s l : ℚ, sumTotalBedsCell mkt rows = XLValue.num s → s ≠ 0 →
      sumLeasedBedsCell mkt rows = XLValue.num l →
      evalOverallPercent mkt rows = XLValue.num (l / s)) ∧
    (sumTotalBedsCell mkt rows = XLValue.num 0 →
      evalOverallPercent mkt rows = XLValue.str "") := by
  refine ⟨sumif_report_col mkt rows MirroredField.totalBeds,
    sumif_report_col mkt rows MirroredField.leasedBeds, ?_, ?_⟩
  · intro s l h1 hs h2
    unfold evalOverallPercent
    rw [h1, h2]
    simp [hs]
  · intro h1
    unfold evalOverallPercent
    rw [h1]
    simp

/-- C6 witness: with every entry row blank, the beds sum is 0 and the
overall-percentage cell evaluates to the empty display. -/
theorem report_totals_spec_witness :
    evalOverallPercent defaultMkt (fun _ => blankRow) = XLValue.str "" := by
  apply (report_totals_spec defaultMkt (fun _ => blankRow)).2.2.2
  rw [(report_totals_spec defaultMkt (fun _ => blankRow)).1]
  have hb : evalTotalBeds blankRow = XLValue.str "" := rfl
  simp only [hb]
  exact congrArg XLValue.num (sum_filter_ne_of_const_empty entryDataRows)

/-- C8: The Reference Sheet Builder assigns each of the six bedroom
types exactly one coordinate, no two bedroom types share a coordinate,
each returned coordinate is the cell actually holding that type's
default, and the defaults written are Studio 0.45, 1 BR 0.50, 2 BR
0.55, 3 BR 0.60, 4 BR 0.55, 5 BR 0.50. -/
theorem market_averages_refs_spec :
    market_avg_refs.map Prod.fst = bedroom_types.map Prod.fst ∧
    (market_avg_refs.map Prod.fst).Nodup ∧
    (market_avg_refs.map Prod.snd).Nodup ∧
    (∀ p ∈ market_avg_refs, ∀ q ∈ bedroom_types, p.1 = q.1 →
      (parseAbsCoord p.2).bind (fun rc => lookupMarketCell rc.1 rc.2)
        = some (CellWrite.numVal q.2)) ∧
    bedroom_types =
      [("Studio", 45 / 100), ("1 BR", 50 / 100), ("2 BR", 55 / 100),
       ("3 BR", 60 / 100), ("4 BR", 55 / 100), ("5 BR", 50 / 100)] := by
  refine ⟨by decide, by decide, by decide, ?_, rfl⟩
  intro p hp q hq hpq
  fin_cases hp <;> fin_cases hq <;>
    first
    | rfl
    | exact absurd hpq (by decide)

/-- C8 witness: the "2 BR" coordinate $C$9 holds the written default
0.55. -/
theorem market_averages_refs_spec_witness :
    (parseAbsCoord "$C$9").bind (fun rc => lookupMarketCell rc.1 rc.2)
      = some (CellWrite.numVal (55 / 100)) :=
  market_averages_refs_spec.2.2.2.1 ("2 BR", "$C$9") (by decide) ("2 BR", 55 / 100)
    (List.mem_cons_of_mem _ (List.mem_cons_of_mem _ (List.mem_cons_self _ _))) rfl

set_option maxRecDepth 40000 in
/-- C9: Generation is deterministic: two separate runs of the
generation function with the sample-data flag on produce, for every
formula cell of the workbook, identical formula strings and hence
identical derived values.  The builders' formula strings depend only on
the loop row index, and the only flag-dependent step,
`add_sample_data`, writes literal values to cells disjoint from every
entry-sheet formula cell and writes no formula. -/
theorem generate_workbook_deterministic (b₁ b₂ : Bool) :
    generate_workbook_formulas b₁ = generate_workbook_formulas b₂ ∧
    (add_sample_data_writes.all (fun w =>
      propertyDataFormulaAddrs.all (fun a => !(w.1 == a.1 && w.2.1 == a.2)))) = true := by
  exact ⟨rfl, by decide⟩

/-- C10: The bedroom-type selection constraint attached to every
bedroom cell in the 100-row entry range accepts a blank entry
(allow_blank is set), and rejects a value if and only if it is
non-blank and not one of the six names Studio, 1 BR, 2 BR, 3 BR, 4 BR,
5 BR, in which case the descriptive message "Please select a valid
bedroom type" is shown. -/
theorem bedroom_validation_spec :
    (∀ r ∈ entryDataRows, (r, 4) ∈ dvTargetCells) ∧
    dv_allow_blank = true ∧
    (∀ v : String, dvAccepts v = false ↔ (v ≠ "" ∧ v ∉ dvList)) ∧
    dvList = bedroomEnum ∧
    bedroomEnum = ["Studio", "1 BR", "2 BR", "3 BR", "4 BR", "5 BR"] ∧
    dv_error = "Please select a valid bedroom type" := by
  refine ⟨?_, rfl, ?_, by decide, by decide, rfl⟩
  · intro r hr
    exact List.mem_map.mpr ⟨r, hr, rfl⟩
  · intro v
    unfold dvAccepts dv_allow_blank
    simp

/-- C10 witness: the validation covers cell D50 and rejects a
non-blank, out-of-set value. -/
theorem bedroom_validation_spec_witness :
    (50, 4) ∈ dvTargetCells ∧ dvAccepts "Penthouse" = false :=
  ⟨bedroom_validation_spec.1 50 (by decide),
   (bedroom_validation_spec.2.2.1 "Penthouse").mpr (by decide)⟩
